import Mathlib

/-!
Verification of the langgraph-research-system workflow core.

Shallow embedding of the state schema (src/state/schema.ts), the custom
field reducers (src/state/reducers.ts), the quality-check nodes
(src/nodes/qualityCheckNode.ts), the literature-review routing
(src/workflows/literatureReview.ts) and the multi-paper batch coordinator
(src/workflows/multiPaper.ts).

JavaScript conventions carried into the embedding:
- `undefined`/`null` are both modelled as `Option.none` (the code never
  distinguishes them in the paths verified here);
- JS truthiness on strings: the empty string is falsy, so `!s` is modelled
  as `s = none or s = some ""`;
- JS `a || b` on numbers maps 0 to `b`; on strings it maps "" to `b`;
- JS string `.length` is modelled by `String.length` (all verified inputs
  are ASCII, where the two coincide);
- `Date.now()` bookkeeping fields (startTime, lastUpdated) and the PDF
  metadata record are omitted: no verified code path reads them.
-/

namespace LGR

/-- JS truthiness of an optional string: present and non-empty. -/
def jsTruthyS (o : Option String) : Bool :=
  match o with
  | none => false
  | some s => s ≠ ""

/-- JS `a || b` on strings: empty string falls back to `b`. -/
def jsOrStr (a b : String) : String :=
  if a = "" then b else a

/-- JS `a || b` on non-negative numbers: 0 falls back to `b`. -/
def jsOrNat (a b : Nat) : Nat :=
  if a = 0 then b else a

/-- ASCII lower-casing of one character, the fragment of JS
`toLowerCase()` exercised by the code (all compared literals are ASCII). -/
def asciiToLower (c : Char) : Char :=
  if 'A' ≤ c ∧ c ≤ 'Z' then Char.ofNat (c.toNat + 32) else c

/-- JS `s.toLowerCase()` on ASCII strings. -/
def strToLower (s : String) : String := ⟨s.data.map asciiToLower⟩

/-- JS `s.endsWith(suffix)`: the character list of `s` ends with the
character list of `suffix`. -/
def strEndsWith (s suffix : String) : Bool :=
  decide (suffix.data.length ≤ s.data.length) &&
    decide (s.data.drop (s.data.length - suffix.data.length) = suffix.data)

/-- JS `s.trim()`: strip leading and trailing whitespace (the ASCII
whitespace characters of `Char.isWhitespace`). -/
def strTrim (s : String) : String :=
  ⟨((s.data.dropWhile Char.isWhitespace).reverse.dropWhile Char.isWhitespace).reverse⟩

/-- Substring containment on character lists (JS `pattern.test(s)` for a
literal pattern). -/
def listHasInfix (pat : List Char) : List Char → Bool
  | [] => decide (pat = [])
  | c :: rest => decide ((c :: rest).take pat.length = pat) || listHasInfix pat rest

/-- Split a character list at newline characters (the line structure the
JS `m` regex flag anchors on). -/
def splitLines : List Char → List (List Char)
  | [] => [[]]
  | c :: rest =>
    if c = '\n' then [] :: splitLines rest
    else
      match splitLines rest with
      | [] => [[c]]
      | line :: more => (c :: line) :: more

/-- Workflow status enum, from src/state/schema.ts (`WorkflowStatus`). -/
inductive WorkflowStatus where
  | idle
  | converting
  | analyzing
  | writing
  | quality_check
  | completed
  | error
  | retry
deriving DecidableEq, Repr

/-- Significance level used in `ResearchGap`. -/
inductive Significance where
  | low
  | medium
  | high
deriving DecidableEq, Repr

/-- Relationship kind used in `RelatedPaper`. -/
inductive Relationship where
  | buildsOn
  | contradicts
  | extendsOn
  | similar
deriving DecidableEq, Repr

/-- Research gap record, from src/state/schema.ts. -/
structure ResearchGap where
  category : String
  description : String
  significance : Significance
deriving DecidableEq, Repr

/-- Related paper record, from src/state/schema.ts.
`relevanceScore` is kept abstract as a rational is not needed by any
verified path; it is stored as given. -/
structure RelatedPaper where
  title : String
  authors : List String
  year : Option Nat
  url : Option String
  relevanceScore : Int
  relationship : Relationship
deriving DecidableEq, Repr

/-- Key finding record, from src/state/schema.ts. -/
structure KeyFinding where
  finding : String
  evidence : String
  confidence : Significance
deriving DecidableEq, Repr

/-- Structured analysis record, from src/state/schema.ts (`PaperAnalysis`). -/
structure PaperAnalysis where
  researchGap : List ResearchGap
  relatedPapers : List RelatedPaper
  keyFindings : List KeyFinding
  methodology : String
  conclusions : String
  strengths : List String
  limitations : List String
  suggestions : List String
deriving DecidableEq, Repr

/-- Quality check record, from src/state/schema.ts (`QualityCheck`). -/
structure QualityCheck where
  passed : Bool
  score : Int
  issues : List String
  suggestions : List String
deriving DecidableEq, Repr

/-- Retry bookkeeping, from src/state/schema.ts (`RetryInfo`). -/
structure RetryInfo where
  attempt : Nat
  maxAttempts : Nat
  reason : Option String
  lastError : Option String
deriving DecidableEq, Repr

/-- Per-input result record built by the multi-paper coordinator
(src/workflows/multiPaper.ts, `aggregatedResults` entries). -/
structure ResultRecord where
  index : Nat
  pdfPath : String
  markdown : Option String
  summary : Option String
  analysis : Option PaperAnalysis
  error : Option String
deriving DecidableEq, Repr

/-- The workflow state, from src/state/schema.ts (`StateAnnotation`).
Timestamp and metadata channels are omitted (never read by the verified
paths). -/
structure State where
  pdfPath : String
  query : String
  maxRetries : Nat
  markdown : Option String
  summary : Option String
  analysis : Option PaperAnalysis
  draft : Option String
  qualityCheck : Option QualityCheck
  status : WorkflowStatus
  retryInfo : Option RetryInfo
  error : Option String
  log : List String
  currentPaperIndex : Nat
  totalPapers : Nat
  pdfPaths : List String
  aggregatedResults : List ResultRecord
deriving DecidableEq, Repr

/-- A partial state update (`Partial<State>` / `StateUpdate`): every field
optional, `none` meaning the key is absent from the update object. -/
structure StateUpdate where
  pdfPath : Option String := none
  query : Option String := none
  maxRetries : Option Nat := none
  markdown : Option String := none
  summary : Option String := none
  analysis : Option PaperAnalysis := none
  draft : Option String := none
  qualityCheck : Option QualityCheck := none
  status : Option WorkflowStatus := none
  retryInfo : Option RetryInfo := none
  error : Option String := none
  log : Option (List String) := none
  currentPaperIndex : Option Nat := none
  totalPapers : Option Nat := none
  pdfPaths : Option (List String) := none
  aggregatedResults : Option (List ResultRecord) := none
deriving DecidableEq, Repr

/-! ## Custom reducers, from src/state/reducers.ts -/

/-- Default merge for an optional channel: take the update value when the
update carries the key, else keep the current value. -/
def mergeOpt {α : Type} (upd cur : Option α) : Option α :=
  match upd with
  | none => cur
  | some v => some v

/-- `analysisReducer`: merges a new analysis into an existing one.
List-valued sub-fields are concatenated previous-then-next; the scalar
sub-fields use JS `next.x || prev.x` (empty string falls back). -/
def analysisReducer (prev next : Option PaperAnalysis) : Option PaperAnalysis :=
  match next with
  | none => prev
  | some n =>
    match prev with
    | none => some n
    | some p =>
      some {
        researchGap := p.researchGap ++ n.researchGap
        relatedPapers := p.relatedPapers ++ n.relatedPapers
        keyFindings := p.keyFindings ++ n.keyFindings
        methodology := jsOrStr n.methodology p.methodology
        conclusions := jsOrStr n.conclusions p.conclusions
        strengths := p.strengths ++ n.strengths
        limitations := p.limitations ++ n.limitations
        suggestions := p.suggestions ++ n.suggestions }

/-- `qualityCheckReducer`: keeps the most recent quality check (`next ?? prev`). -/
def qualityCheckReducer (prev next : Option QualityCheck) : Option QualityCheck :=
  match next with
  | none => prev
  | some n => some n

/-- `retryInfoReducer`: `if (!next) return prev; return { ...next, lastError: prev?.lastError }`.
Note the spread is overridden: the merged `lastError` is always the
previous lastError, regardless of the lastError carried by `next`. -/
def retryInfoReducer (prev next : Option RetryInfo) : Option RetryInfo :=
  match next with
  | none => prev
  | some n =>
    some { n with lastError := Option.bind prev RetryInfo.lastError }

/-- `logReducer`: appends new log entries to existing logs. -/
def logReducer (prev next : Option (List String)) : List String :=
  match next with
  | none => prev.getD []
  | some n =>
    match prev with
    | none => n
    | some p => p ++ n

/-- `aggregatedResultsReducer`: appends new entries. -/
def aggregatedResultsReducer (prev next : Option (List ResultRecord)) : List ResultRecord :=
  match next with
  | none => prev.getD []
  | some n =>
    match prev with
    | none => n
    | some p => p ++ n

/-- The status progression table of `statusReducer`
(src/state/reducers.ts, `statusOrder`). -/
def statusOrder : WorkflowStatus → Nat
  | .idle => 0
  | .converting => 1
  | .analyzing => 2
  | .writing => 3
  | .quality_check => 4
  | .retry => 5
  | .error => 6
  | .completed => 7

/-- `statusReducer`: prevents status regression. `retry` always wins,
`error` wins unless the current status is `completed`, otherwise the new
status is accepted only when its level is at least the current level. -/
def statusReducer (prev next : Option WorkflowStatus) : Option WorkflowStatus :=
  match next with
  | none => prev
  | some n =>
    match prev with
    | none => some n
    | some p =>
      if n = .retry then some n
      else if n = .error && p ≠ .completed then some n
      else if statusOrder p ≤ statusOrder n then some n
      else some p

/-- `mergeStateReducer`: per-field merge of a partial update into a state
(src/state/reducers.ts). Fields with custom reducers use them; all other
fields are last-write-wins when the update carries a value. -/
def mergeStateReducer (state : State) (update : StateUpdate) : State where
  pdfPath := update.pdfPath.getD state.pdfPath
  query := update.query.getD state.query
  maxRetries := update.maxRetries.getD state.maxRetries
  markdown := mergeOpt update.markdown state.markdown
  summary := mergeOpt update.summary state.summary
  analysis := analysisReducer state.analysis update.analysis
  draft := mergeOpt update.draft state.draft
  qualityCheck := qualityCheckReducer state.qualityCheck update.qualityCheck
  status := (statusReducer (some state.status) update.status).getD state.status
  retryInfo := retryInfoReducer state.retryInfo update.retryInfo
  error := mergeOpt update.error state.error
  log := logReducer (some state.log) update.log
  currentPaperIndex := update.currentPaperIndex.getD state.currentPaperIndex
  totalPapers := update.totalPapers.getD state.totalPapers
  pdfPaths := update.pdfPaths.getD state.pdfPaths
  aggregatedResults := aggregatedResultsReducer (some state.aggregatedResults) update.aggregatedResults

/-- `batchStateReducer`: folds a sequence of updates through `mergeStateReducer`. -/
def batchStateReducer (state : State) (updates : List StateUpdate) : State :=
  updates.foldl mergeStateReducer state

/-! ## LangGraph channel merge, from src/state/schema.ts (`StateAnnotation`)

The compiled graphs merge node updates through the per-channel reducers of
`StateAnnotation`: every channel is `next ?? prev` except `log` and
`aggregatedResults`, which append. -/

/-- Apply a node update through the `StateAnnotation` channel reducers. -/
def applyUpdate (s : State) (u : StateUpdate) : State where
  pdfPath := u.pdfPath.getD s.pdfPath
  query := u.query.getD s.query
  maxRetries := u.maxRetries.getD s.maxRetries
  markdown := mergeOpt u.markdown s.markdown
  summary := mergeOpt u.summary s.summary
  analysis := mergeOpt u.analysis s.analysis
  draft := mergeOpt u.draft s.draft
  qualityCheck := mergeOpt u.qualityCheck s.qualityCheck
  status := u.status.getD s.status
  retryInfo := mergeOpt u.retryInfo s.retryInfo
  error := mergeOpt u.error s.error
  log := s.log ++ u.log.getD []
  currentPaperIndex := u.currentPaperIndex.getD s.currentPaperIndex
  totalPapers := u.totalPapers.getD s.totalPapers
  pdfPaths := u.pdfPaths.getD s.pdfPaths
  aggregatedResults := s.aggregatedResults ++ u.aggregatedResults.getD []

/-! ## Quality gate, from src/nodes/qualityCheckNode.ts -/

/-- Quality thresholds, from `getConfig().quality` plus `requireCitations`
(src/nodes/qualityCheckNode.ts, `QualityThresholds`). -/
structure QualityThresholds where
  minSummaryLength : Nat
  minAnalysisItems : Nat
  minDraftLength : Nat
  requireCitations : Bool
deriving DecidableEq, Repr

/-- The configuration defaults from src/config.ts:
QUALITY_MIN_SUMMARY_LENGTH 100, QUALITY_MIN_ANALYSIS_ITEMS 3,
QUALITY_MIN_DRAFT_LENGTH 500. -/
def defaultThresholds : QualityThresholds where
  minSummaryLength := 100
  minAnalysisItems := 3
  minDraftLength := 500
  requireCitations := false

/-- One line matches the JS regex `^#\x7b1,6\x7d\s` anchor: one to six
leading hash characters followed by a whitespace character. -/
def lineHasHeading (l : List Char) : Bool :=
  let k := (l.takeWhile (fun c => c = '#')).length
  decide (1 ≤ k) && decide (k ≤ 6) &&
    (match l.drop k with
     | [] => false
     | c :: _ => c.isWhitespace)

/-- JS `/^#\x7b1,6\x7d\s/m.test(draft)`: some line starts with a markdown
heading marker. -/
def hasHeadingMarker (s : String) : Bool :=
  (splitLines s.data).any lineHasHeading

/-- JS `/conclusion/i.test(draft)`: the draft contains the word
"conclusion" case-insensitively. -/
def containsConclusion (s : String) : Bool :=
  listHasInfix "conclusion".data (strToLower s).data

/-- Summary scoring block of `analysisQualityCheckNode`: returns the score
deduction, the issues and the suggestions it pushes. -/
def summaryCheckA (cfg : QualityThresholds) (summary : Option String) :
    Int × List String × List String :=
  if !jsTruthyS summary then
    (30, ["No summary generated"], [])
  else
    let t := summary.getD ""
    if t.length < cfg.minSummaryLength then
      (15,
       ["Summary too short (" ++ toString t.length ++ " < " ++ toString cfg.minSummaryLength ++ ")"],
       ["Consider expanding the summary with more context"])
    else (0, [], [])

/-- Analysis scoring block of `analysisQualityCheckNode`. -/
def analysisCheckA (cfg : QualityThresholds) (analysis : Option PaperAnalysis) :
    Int × List String × List String :=
  match analysis with
  | none => (40, ["No analysis generated"], [])
  | some a =>
    let r1 :=
      if a.keyFindings.length < cfg.minAnalysisItems then
        ((20 : Int),
         ["Insufficient key findings (" ++ toString a.keyFindings.length ++ " < " ++ toString cfg.minAnalysisItems ++ ")"],
         ["Extract more key findings from the paper"])
      else (0, [], [])
    let r2 :=
      if a.methodology = "" || a.methodology.length < 50 then
        ((10 : Int), ["Methodology description missing or too brief"],
         ["Provide a more detailed methodology description"])
      else (0, [], [])
    let r3 :=
      if a.conclusions = "" || a.conclusions.length < 50 then
        ((10 : Int), ["Conclusions missing or too brief"],
         ["Expand the conclusions with more detail"])
      else (0, [], [])
    let r4 :=
      if a.researchGap.length = 0 then
        ((10 : Int), ["No research gaps identified"],
         ["Identify research gaps addressed by this paper"])
      else (0, [], [])
    (r1.1 + r2.1 + r3.1 + r4.1,
     r1.2.1 ++ r2.2.1 ++ r3.2.1 ++ r4.2.1,
     r1.2.2 ++ r2.2.2 ++ r3.2.2 ++ r4.2.2)

/-- Core of `analysisQualityCheckNode` (src/nodes/qualityCheckNode.ts):
scores the summary and the analysis, clamps to 0, passes at score 60, and
returns the node update. The update carries no `retryInfo` key. -/
def analysisQualityCheckCore (cfg : QualityThresholds)
    (summary : Option String) (analysis : Option PaperAnalysis) : StateUpdate :=
  let rS := summaryCheckA cfg summary
  let rA := analysisCheckA cfg analysis
  let score := max 0 (100 - rS.1 - rA.1)
  let issues := rS.2.1 ++ rA.2.1
  let suggestions := rS.2.2 ++ rA.2.2
  let passed := decide ((60 : Int) ≤ score)
  { status := some (if passed then .writing else .analyzing)
    qualityCheck := some ⟨passed, score, issues, suggestions⟩
    log := some (["Analysis quality check: " ++ (if passed then "PASSED" else "FAILED"),
                  "Score: " ++ toString score ++ "/100"] ++
                 (if passed then [] else suggestions.map (fun s => "Suggestion: " ++ s))) }

/-- `analysisQualityCheckNode`: reads only `state.summary` and `state.analysis`. -/
def analysisQualityCheckNode (cfg : QualityThresholds) (state : State) : StateUpdate :=
  analysisQualityCheckCore cfg state.summary state.analysis

/-- Core of `draftQualityCheckNode` (src/nodes/qualityCheckNode.ts). -/
def draftQualityCheckCore (cfg : QualityThresholds) (draft : Option String) : StateUpdate :=
  let r1 :=
    if !jsTruthyS draft then
      ((50 : Int), ["No draft generated"], ([] : List String))
    else
      let t := draft.getD ""
      if t.length < cfg.minDraftLength then
        (30,
         ["Draft too short (" ++ toString t.length ++ " < " ++ toString cfg.minDraftLength ++ ")"],
         ["Expand the draft with more detail and analysis"])
      else (0, [], [])
  let r2 :=
    if jsTruthyS draft then
      let t := draft.getD ""
      let h1 :=
        if !hasHeadingMarker t then
          ((10 : Int), ["Draft lacks proper structure (no headings)"],
           ["Add headings to organize the draft"])
        else (0, [], [])
      let h2 :=
        if !containsConclusion t then
          ((10 : Int), ["Draft missing conclusion section"], ["Add a conclusion section"])
        else (0, [], [])
      (h1.1 + h2.1, h1.2.1 ++ h2.2.1, h1.2.2 ++ h2.2.2)
    else (0, [], [])
  let score := max 0 (100 - r1.1 - r2.1)
  let issues := r1.2.1 ++ r2.2.1
  let suggestions := r1.2.2 ++ r2.2.2
  let passed := decide ((60 : Int) ≤ score)
  { status := some (if passed then .completed else .writing)
    qualityCheck := some ⟨passed, score, issues, suggestions⟩
    log := some (["Draft quality check: " ++ (if passed then "PASSED" else "FAILED"),
                  "Score: " ++ toString score ++ "/100"] ++
                 (if passed then [] else suggestions.map (fun s => "Suggestion: " ++ s))) }

/-- `draftQualityCheckNode`: reads only `state.draft`. -/
def draftQualityCheckNode (cfg : QualityThresholds) (state : State) : StateUpdate :=
  draftQualityCheckCore cfg state.draft

/-- Router label set of the quality-check conditional edges. -/
inductive QCRoute where
  | analyze
  | write
  | completed
deriving DecidableEq, Repr

/-- `shouldRetry` (src/state/schema.ts): retry only while a retryInfo is
present and its attempt is below its own maxAttempts. -/
def shouldRetry (state : State) : Bool :=
  match state.retryInfo with
  | none => false
  | some ri => ri.attempt < ri.maxAttempts

/-- `qualityCheckRoute` (src/workflows/literatureReview.ts): router run on
the state after the quality-check update has been merged. -/
def qualityCheckRoute (state : State) : QCRoute :=
  match state.qualityCheck with
  | none => .completed
  | some qc =>
    if qc.passed then
      if !jsTruthyS state.draft then .write
      else .completed
    else if !shouldRetry state then .completed
    else if !jsTruthyS state.draft then .analyze
    else .write

/-- Result of `performQualityCheck` (src/nodes/qualityCheckNode.ts). -/
structure QualityCheckResult where
  passed : Bool
  qualityCheck : QualityCheck
  nextNode : QCRoute
deriving DecidableEq, Repr

/-- `performQualityCheck` (src/nodes/qualityCheckNode.ts): the combined
gate. Scores summary, analysis and draft, clamps to 0, passes at 60, and
classifies the deficient stage with analysis checked before draft. It
never touches the attempt counter. -/
def performQualityCheck (state : State) (cfg : QualityThresholds) : QualityCheckResult :=
  let rS :=
    if !jsTruthyS state.summary then
      ((20 : Int), ["No summary generated"])
    else
      let t := state.summary.getD ""
      if t.length < cfg.minSummaryLength then
        (10, ["Summary too short (" ++ toString t.length ++ " < " ++ toString cfg.minSummaryLength ++ ")"])
      else (0, [])
  let rA :=
    match state.analysis with
    | none => ((30 : Int), ["No analysis generated"])
    | some a =>
      let x1 :=
        if a.keyFindings.length < cfg.minAnalysisItems then
          ((15 : Int),
           ["Insufficient key findings (" ++ toString a.keyFindings.length ++ " < " ++ toString cfg.minAnalysisItems ++ ")"])
        else (0, [])
      let x2 := if a.methodology = "" then ((10 : Int), ["No methodology description"]) else (0, [])
      let x3 := if a.conclusions = "" then ((10 : Int), ["No conclusions"]) else (0, [])
      (x1.1 + x2.1 + x3.1, x1.2 ++ x2.2 ++ x3.2)
  let rD :=
    if !jsTruthyS state.draft then
      ((30 : Int), ["No draft generated"])
    else
      let t := state.draft.getD ""
      if t.length < cfg.minDraftLength then
        (15, ["Draft too short (" ++ toString t.length ++ " < " ++ toString cfg.minDraftLength ++ ")"])
      else (0, [])
  let score := max 0 (100 - rS.1 - rA.1 - rD.1)
  let passed := decide ((60 : Int) ≤ score)
  let analysisDeficient :=
    match state.analysis with
    | none => true
    | some a => decide (a.keyFindings.length < cfg.minAnalysisItems)
  let draftDeficient :=
    !jsTruthyS state.draft || decide ((state.draft.getD "").length < cfg.minDraftLength)
  let nextNode :=
    if !passed then
      if analysisDeficient then QCRoute.analyze
      else if draftDeficient then QCRoute.write
      else QCRoute.completed
    else QCRoute.completed
  { passed := passed
    qualityCheck := ⟨passed, score, rS.2 ++ rA.2 ++ rD.2, []⟩
    nextNode := nextNode }

/-- `determineNextNode` (src/nodes/qualityCheckNode.ts): on failure,
terminal-accept once `state.retryInfo?.attempt || 0` has reached
`state.maxRetries || 3`, else route to the deficient stage. -/
def determineNextNode (state : State) (result : QualityCheckResult) : QCRoute :=
  if result.passed then .completed
  else
    let currentAttempt := (state.retryInfo.map RetryInfo.attempt).getD 0
    let maxR := jsOrNat state.maxRetries 3
    if maxR ≤ currentAttempt then .completed
    else result.nextNode

/-- Router label rendered into the log line of `qualityCheckNode`. -/
def qcRouteStr : QCRoute → String
  | .analyze => "analyze"
  | .write => "write"
  | .completed => "completed"

/-- `qualityCheckNode` (src/nodes/qualityCheckNode.ts): the combined gate
node. Its update carries `status`, `qualityCheck` and `log` only — no
`retryInfo`. -/
def qualityCheckNode (cfg : QualityThresholds) (state : State) : StateUpdate :=
  let result := performQualityCheck state cfg
  let nextNode := determineNextNode state result
  { status := some (if result.passed then .completed
                    else if nextNode = QCRoute.analyze then .analyzing else .writing)
    qualityCheck := some result.qualityCheck
    log := some ["Quality check: " ++ (if result.passed then "PASSED" else "FAILED"),
                 "Score: " ++ toString result.qualityCheck.score ++ "/100",
                 "Issues: " ++ toString result.qualityCheck.issues.length,
                 if result.passed then "Proceeding to completion"
                 else "Retrying from: " ++ qcRouteStr nextNode] }

/-! ## Literature-review workflow executor, from src/workflows/literatureReview.ts

Graph: convert → analyze → analysis_quality_check →(route)→
\x7banalyze, write, END\x7d; write → draft_quality_check →(route)→
\x7banalyze, write, END\x7d. The external stages (convert, analyze,
write) call collaborators and are parameters of the executor; the
quality-check nodes and the router are embedded above. -/

/-- Graph positions of the literature-review workflow. -/
inductive LRNode where
  | convert
  | analyze
  | analysisQC
  | write
  | draftQC
  | terminal
deriving DecidableEq, Repr

/-- The three collaborator-invoking stages, abstracted at the external
interface boundary. -/
structure LRStages where
  convert : State → StateUpdate
  analyze : State → StateUpdate
  write : State → StateUpdate

/-- One executor step: invoke the node at the current position on the
current state, merge its update through the channel reducers, then follow
the unconditional edge or evaluate `qualityCheckRoute` on the merged
state. -/
def lrStep (cfg : QualityThresholds) (stg : LRStages) :
    LRNode × State → LRNode × State
  | (.convert, s) => (.analyze, applyUpdate s (stg.convert s))
  | (.analyze, s) => (.analysisQC, applyUpdate s (stg.analyze s))
  | (.analysisQC, s) =>
    let s2 := applyUpdate s (analysisQualityCheckNode cfg s)
    (match qualityCheckRoute s2 with
     | .analyze => .analyze
     | .write => .write
     | .completed => .terminal, s2)
  | (.write, s) => (.draftQC, applyUpdate s (stg.write s))
  | (.draftQC, s) =>
    let s2 := applyUpdate s (draftQualityCheckNode cfg s)
    (match qualityCheckRoute s2 with
     | .analyze => .analyze
     | .write => .write
     | .completed => .terminal, s2)
  | (.terminal, s) => (.terminal, s)

/-- Run `n` executor steps. -/
def lrRun (cfg : QualityThresholds) (stg : LRStages) :
    Nat → LRNode × State → LRNode × State
  | 0, x => x
  | n + 1, x => lrRun cfg stg n (lrStep cfg stg x)

/-- The initial state built by `runLiteratureReviewWorkflow`. -/
def lrInitialState (pdfPath query : String) (maxRetries : Nat) : State where
  pdfPath := pdfPath
  query := query
  maxRetries := maxRetries
  markdown := none
  summary := none
  analysis := none
  draft := none
  qualityCheck := none
  status := .idle
  retryInfo := none
  error := none
  log := ["Starting literature review workflow: " ++ pdfPath]
  currentPaperIndex := 0
  totalPapers := 1
  pdfPaths := []
  aggregatedResults := []

/-! ## Multi-paper batch coordinator, from src/workflows/multiPaper.ts

`runSinglePaperWorkflow` is the per-input pipeline; it is abstracted at
its interface: a successful call returns a final state projection, an
unexpected exception is a thrown message. The synthesis stage
(`writeComparativeAnalysisNode`, or the compiled comparison graph in the
sequential variant) is likewise abstracted by its observable outcome. -/

/-- Projection of the final state returned by `runSinglePaperWorkflow`. -/
structure SingleRunResult where
  markdown : Option String
  summary : Option String
  analysis : Option PaperAnalysis
  status : WorkflowStatus
  error : Option String
deriving DecidableEq, Repr

/-- Outcome of one per-input pipeline call: a returned final state or a
thrown error message. -/
inductive RunnerOutcome where
  | ok (r : SingleRunResult)
  | thrown (msg : String)
deriving DecidableEq, Repr

/-- Outcome of the synthesis stage: the status and draft of its returned
update, or a thrown error message. -/
inductive SynthOutcome where
  | ret (status : WorkflowStatus) (draft : Option String)
  | thrown (msg : String)
deriving DecidableEq, Repr

/-- JS falsiness of the `error` field: absent or the empty string. -/
def jsFalsyS (o : Option String) : Bool :=
  match o with
  | none => true
  | some s => s = ""

/-- Build one result record of `runMultiPaperWorkflowParallel`: the
`index` is the dispatch-time global position; a thrown pipeline yields a
record with only `index`, `pdfPath` and `error`; a returned pipeline
copies the artifacts and carries `error` only when its status is error. -/
def mkParRecord (runner : String → RunnerOutcome) (idx : Nat) (path : String) : ResultRecord :=
  match runner path with
  | .thrown msg => ⟨idx, path, none, none, none, some msg⟩
  | .ok r => ⟨idx, path, r.markdown, r.summary, r.analysis,
              if r.status = .error then r.error else none⟩

/-- One wave: `batch.map((pdfPath, batchIndex) => ...)` awaited with
`Promise.all`, which returns the records in map order; the global index of
entry `batchIndex` is `base + batchIndex`. -/
def mkParRecords (runner : String → RunnerOutcome) (base : Nat) :
    List String → List ResultRecord
  | [] => []
  | p :: rest => mkParRecord runner base p :: mkParRecords runner (base + 1) rest

/-- The wave loop of `runMultiPaperWorkflowParallel`: slices the input
list into consecutive waves of size `concurrency = c + 1` (the source
requires a positive concurrency; `c + 1` makes that explicit) and appends
each completed wave to the aggregate. -/
def runWaves (runner : String → RunnerOutcome) (c : Nat) :
    Nat → List String → List ResultRecord
  | _, [] => []
  | base, p :: rest =>
    let wave := (p :: rest).take (c + 1)
    mkParRecords runner base wave ++
      runWaves runner c (base + wave.length) ((p :: rest).drop (c + 1))
termination_by _ l => l.length
decreasing_by
  simp only [List.length_drop, List.length_cons]
  omega

/-- Final batch outcome of the parallel coordinator: the aggregated
records, the comparative draft, the batch status, and how many times the
synthesis stage was invoked (the source has a single call site guarded by
the successful-count test). -/
structure ParBatchFinal where
  aggregatedResults : List ResultRecord
  draft : Option String
  status : WorkflowStatus
  synthCalls : Nat
deriving DecidableEq, Repr

/-- The single synthesis call site of `runMultiPaperWorkflowParallel`: a
thrown synthesis is caught and ignored; a returned update contributes its
draft only when its status is completed and the draft is truthy; the batch
status stays `completed` in every branch (`finalStatus` is never
reassigned in this variant). -/
def parallelSynthesisStep (agg : List ResultRecord) (outcome : SynthOutcome) :
    ParBatchFinal :=
  match outcome with
  | .thrown _ => ⟨agg, none, .completed, 1⟩
  | .ret st dr =>
    if st = .completed && jsTruthyS dr then ⟨agg, dr, .completed, 1⟩
    else ⟨agg, none, .completed, 1⟩

/-- `runMultiPaperWorkflowParallel` (src/workflows/multiPaper.ts): run the
waves, filter records with a falsy `error`, invoke the synthesis stage
once when more than one survives. -/
def runMultiPaperWorkflowParallel (runner : String → RunnerOutcome)
    (synth : List ResultRecord → SynthOutcome)
    (pdfPaths : List String) (c : Nat) : ParBatchFinal :=
  let aggregatedResults := runWaves runner c 0 pdfPaths
  let successfulResults := aggregatedResults.filter (fun r => jsFalsyS r.error)
  if 1 < successfulResults.length then
    parallelSynthesisStep aggregatedResults (synth successfulResults)
  else ⟨aggregatedResults, none, .completed, 0⟩

/-- A result record of the sequential `runMultiPaperWorkflow`: built for
every input, with no `error` field. -/
structure SeqRecord where
  index : Nat
  pdfPath : String
  markdown : Option String
  summary : Option String
  analysis : Option PaperAnalysis
deriving DecidableEq, Repr

/-- The sequential per-input loop: one record per input, in input order. -/
def mkSeqRecords (runner : String → SingleRunResult) (base : Nat) :
    List String → List SeqRecord
  | [] => []
  | p :: rest =>
    let r := runner p
    ⟨base, p, r.markdown, r.summary, r.analysis⟩ :: mkSeqRecords runner (base + 1) rest

/-- Final batch outcome of the sequential coordinator. -/
structure SeqBatchFinal where
  aggregatedResults : List SeqRecord
  draft : Option String
  status : WorkflowStatus
  synthCalls : Nat
deriving DecidableEq, Repr

/-- `runMultiPaperWorkflow` (src/workflows/multiPaper.ts, sequential
variant): records are built for all inputs; when more than one record
exists the comparison graph is invoked once; a synthesis result whose
status is error, or a thrown synthesis, sets the batch status to error. -/
def runMultiPaperWorkflow (runner : String → SingleRunResult)
    (synth : List SeqRecord → SynthOutcome)
    (pdfPaths : List String) : SeqBatchFinal :=
  let aggregatedResults := mkSeqRecords runner 0 pdfPaths
  if 1 < aggregatedResults.length then
    match synth aggregatedResults with
    | .thrown _ => ⟨aggregatedResults, none, .error, 1⟩
    | .ret st dr =>
      if st = .completed && jsTruthyS dr then ⟨aggregatedResults, dr, .completed, 1⟩
      else ⟨aggregatedResults, none, if st = .error then .error else .completed, 1⟩
  else ⟨aggregatedResults, none, .completed, 0⟩

/-! ## Input validation, from src/workflows/multiPaper.ts -/

/-- The `\x7bvalid, error?\x7d` result of the input validators. -/
structure ValidationResult where
  valid : Bool
  error : Option String
deriving DecidableEq, Repr

/-- The `for (const pdfPath of pdfPaths)` loop: first path that does not
end in ".pdf" case-insensitively, if any. -/
def findNonPdf : List String → Option String
  | [] => none
  | p :: rest => if strEndsWith (strToLower p) ".pdf" then findNonPdf rest else some p

/-- `validateMultiPaperInputs` (src/workflows/multiPaper.ts): rejects an
empty list, more than 20 paths, any non-.pdf path (reporting the first),
and an empty or whitespace-only query; accepts everything else. -/
def validateMultiPaperInputs (pdfPaths : List String) (query : String) : ValidationResult :=
  if pdfPaths.length = 0 then
    ⟨false, some "At least one PDF path is required"⟩
  else if 20 < pdfPaths.length then
    ⟨false, some "Maximum 20 PDFs can be processed at once"⟩
  else
    match findNonPdf pdfPaths with
    | some p => ⟨false, some ("Invalid PDF file: " ++ p)⟩
    | none =>
      if query = "" then ⟨false, some "Query is required"⟩
      else if (strTrim query).length = 0 then ⟨false, some "Query is required"⟩
      else ⟨true, none⟩

/-! ## Concrete runs of the literature-review workflow

A run whose analysis stage keeps producing a low-quality artifact: one key
finding (below the minimum of 3), empty methodology and conclusions, no
research gaps, a 13-character summary. The analysis gate scores it
100 - 15 - 20 - 10 - 10 - 10 = 35 < 60, so the gate keeps failing. -/

/-- An analysis artifact that keeps failing the analysis quality gate. -/
def badAnalysis : PaperAnalysis where
  researchGap := []
  relatedPapers := []
  keyFindings := [⟨"single finding", "weak evidence", .low⟩]
  methodology := ""
  conclusions := ""
  strengths := []
  limitations := []
  suggestions := []

/-- A successful conversion update, shaped like `convertNode` success. -/
def exConvert : StateUpdate where
  status := some .analyzing
  markdown := some "# Paper\nbody text"
  log := some ["Conversion completed: 3 words", "Markdown generated: paper.pdf.md"]

/-- An analysis update carrying the low-quality artifact, shaped like
`analyzeNode` success. -/
def exAnalyze : StateUpdate where
  status := some .writing
  analysis := some badAnalysis
  summary := some "short summary"
  log := some ["Paper analysis completed"]

/-- Stage behaviors for the failing run. -/
def exStages : LRStages where
  convert := fun _ => exConvert
  analyze := fun _ => exAnalyze
  write := fun _ => { status := some .quality_check }

/-- The failing run started exactly as `runLiteratureReviewWorkflow` does,
with `maxRetries = 3`. -/
def exRun (n : Nat) : LRNode × State :=
  lrRun defaultThresholds exStages n (.convert, lrInitialState "paper.pdf" "q" 3)

/-- The analyze-stage update of the looping run (same artifact every time). -/
def loopAnalyzeUpdate : StateUpdate where
  status := some .writing
  analysis := some badAnalysis
  summary := some "short summary"
  log := some ["Paper analysis completed"]

/-- Stage behaviors of the looping run. -/
def loopStages : LRStages where
  convert := fun _ => exConvert
  analyze := fun _ => loopAnalyzeUpdate
  write := fun _ => { status := some .quality_check }

/-- A retryInfo left by one recovered stage failure: attempt 1 of 3. -/
def loopRetry : RetryInfo := ⟨1, 3, none, none⟩

/-- A mid-run state at the analysis gate with retries remaining
(`shouldRetry` holds: attempt 1 < maxAttempts 3). -/
def loopInit : State :=
  { lrInitialState "paper.pdf" "q" 3 with
      markdown := some "# Paper\nbody text"
      summary := some "short summary"
      analysis := some badAnalysis
      status := .writing
      retryInfo := some loopRetry }

/-- Fields of the looping run that drive the gate and the router. -/
def loopInv (s : State) : Prop :=
  s.summary = some "short summary" ∧ s.analysis = some badAnalysis ∧
    s.draft = none ∧ s.retryInfo = some loopRetry

/-- The gate update computed on every visit of the looping run. -/
def loopQCU : StateUpdate :=
  analysisQualityCheckCore defaultThresholds (some "short summary") (some badAnalysis)

theorem loop_preserved (x : LRNode × State)
    (h : (x.1 = LRNode.analysisQC ∨ x.1 = LRNode.analyze) ∧ loopInv x.2) :
    ((lrStep defaultThresholds loopStages x).1 = LRNode.analysisQC ∨
      (lrStep defaultThresholds loopStages x).1 = LRNode.analyze) ∧
      loopInv (lrStep defaultThresholds loopStages x).2 := by
  obtain ⟨hn, hinv⟩ := h
  obtain ⟨hs, ha, hd, hr⟩ := hinv
  rcases x with ⟨node, s⟩
  simp only at hn hs ha hd hr
  rcases hn with h1 | h1 <;> subst h1
  · have hqcn : analysisQualityCheckNode defaultThresholds s = loopQCU := by
      unfold analysisQualityCheckNode loopQCU
      rw [hs, ha]
    have hqc : ∃ qc, loopQCU.qualityCheck = some qc ∧ qc.passed = false := by
      refine ⟨⟨false, 35, loopQCU.qualityCheck.elim [] QualityCheck.issues,
        loopQCU.qualityCheck.elim [] QualityCheck.suggestions⟩, ?_, rfl⟩
      decide
    obtain ⟨qc, hqc1, hqc2⟩ := hqc
    have hroute : qualityCheckRoute (applyUpdate s loopQCU) = QCRoute.analyze := by
      simp only [qualityCheckRoute, applyUpdate, mergeOpt, hqc1]
      have : loopQCU.draft = none := rfl
      rw [this]
      have : loopQCU.retryInfo = none := rfl
      rw [this]
      simp only [hd, hr, hqc2, shouldRetry, jsTruthyS, loopRetry]
      decide
    have eS : loopQCU.summary = none := rfl
    have eA : loopQCU.analysis = none := rfl
    have eD : loopQCU.draft = none := rfl
    have eR : loopQCU.retryInfo = none := rfl
    constructor
    · simp only [lrStep, hqcn, hroute]
      trivial
    · simp only [lrStep, hqcn, hroute, loopInv, applyUpdate, eS, eA, eD, eR, mergeOpt]
      exact ⟨hs, ha, hd, hr⟩
  · constructor
    · simp only [lrStep]
      trivial
    · simp only [lrStep, loopStages, loopInv, applyUpdate, mergeOpt, loopAnalyzeUpdate]
      exact ⟨trivial, trivial, hd, hr⟩

theorem loop_run_inv (n : Nat) (x : LRNode × State)
    (h : (x.1 = LRNode.analysisQC ∨ x.1 = LRNode.analyze) ∧ loopInv x.2) :
    ((lrRun defaultThresholds loopStages n x).1 = LRNode.analysisQC ∨
      (lrRun defaultThresholds loopStages n x).1 = LRNode.analyze) ∧
      loopInv (lrRun defaultThresholds loopStages n x).2 := by
  induction n generalizing x with
  | zero => exact h
  | succ n ih => exact ih _ (loop_preserved x h)

/-- Claim C1 (code bug): in the literature-review workflow a keeps-failing
quality gate does not make the attempt counter increase — the gate nodes
never write `retryInfo`. Concretely: with `maxRetries = 3`, the run
reaches the gate once (step 2) and is already terminal at step 3 with
`retryInfo` still absent, the gate having terminal-accepted at attempt 0;
and from a state at the gate whose `retryInfo` has attempt 1 of 3 (so
`shouldRetry` holds) the executor cycles between the gate and the analyze
stage forever — it never reaches the terminal label within
`maxRetries + 1` gate evaluations or any other bound. -/
theorem lr_gate_attempt_never_increments :
    ((exRun 2).1 = LRNode.analysisQC ∧
     (exRun 3).1 = LRNode.terminal ∧
     (exRun 3).2.maxRetries = 3 ∧
     (exRun 3).2.retryInfo = none ∧
     ((exRun 3).2.qualityCheck.map QualityCheck.passed) = some false) ∧
    (∀ n, decide
      ((lrRun defaultThresholds loopStages n (LRNode.analysisQC, loopInit)).1 =
        LRNode.terminal) = false) := by
  constructor
  · decide
  · intro n
    apply decide_eq_false
    intro hterm
    have h := loop_run_inv n (LRNode.analysisQC, loopInit)
      ⟨Or.inl rfl, rfl, rfl, rfl, rfl⟩
    rcases h.1 with h1 | h1 <;> rw [hterm] at h1 <;> exact LRNode.noConfusion h1

/-- Claim C2 (code bug): a literature-review run whose quality gate fails
with no retry available terminates (routes to END), but its final status
is `analyzing` — the status the failing gate node wrote — and not
`completed` or `error`. -/
theorem lr_terminal_accept_status_not_completed :
    (exRun 3).1 = LRNode.terminal ∧
    shouldRetry (exRun 3).2 = false ∧
    ((exRun 3).2.qualityCheck.map QualityCheck.passed) = some false ∧
    (exRun 3).2.status = WorkflowStatus.analyzing ∧
    decide ((exRun 3).2.status = WorkflowStatus.completed) = false ∧
    decide ((exRun 3).2.status = WorkflowStatus.error) = false := by
  decide

/-- A state at the combined quality gate: no summary, the low-quality
analysis, no draft, no retryInfo yet, `maxRetries = 3`. The gate scores it
100 - 20 - 15 - 10 - 10 - 30 = 15 < 60. -/
def c5State : State :=
  { lrInitialState "paper.pdf" "q" 3 with
      markdown := some "# Paper\nbody text"
      analysis := some badAnalysis
      status := .quality_check }

/-- Claim C5 (code bug): when the combined gate fails with retries
remaining it classifies the deficiency — analysis checked before draft,
both deficient here and `analyze` chosen — but it does not increment the
attempt counter: its update carries no `retryInfo`, so after the merge the
attempt is still absent rather than incremented. -/
theorem performQualityCheck_no_attempt_increment :
    (performQualityCheck c5State defaultThresholds).passed = false ∧
    c5State.draft = none ∧
    (performQualityCheck c5State defaultThresholds).nextNode = QCRoute.analyze ∧
    ((c5State.retryInfo.map RetryInfo.attempt).getD 0 = 0 ∧ c5State.maxRetries = 3) ∧
    determineNextNode c5State (performQualityCheck c5State defaultThresholds) =
      QCRoute.analyze ∧
    (qualityCheckNode defaultThresholds c5State).retryInfo = none ∧
    (mergeStateReducer c5State (qualityCheckNode defaultThresholds c5State)).retryInfo
      = none := by
  decide

/-! ## Status merge policy -/

/-- Rank of a status in the monotonic progression
idle < converting < analyzing < writing < quality_check < completed;
`retry` and `error` are the override labels outside the progression. -/
def progRank : WorkflowStatus → Option Nat
  | .idle => some 0
  | .converting => some 1
  | .analyzing => some 2
  | .writing => some 3
  | .quality_check => some 4
  | .completed => some 5
  | .error => none
  | .retry => none

/-- Claim C3 (confirmed): `statusReducer` is monotone — a `retry` update
always wins; an `error` update wins exactly when the current status is not
`completed`; and for current and update statuses in the progression the
update is accepted exactly when its progression rank is at least the
current rank, else the current status is kept. -/
theorem statusReducer_monotone_progression :
    (∀ p : WorkflowStatus, statusReducer (some p) (some .retry) = some .retry) ∧
    (∀ p : WorkflowStatus, p ≠ .completed →
      statusReducer (some p) (some .error) = some .error) ∧
    (statusReducer (some .completed) (some .error) = some .completed) ∧
    (∀ p n : WorkflowStatus, ∀ rp rn : Nat, progRank p = some rp → progRank n = some rn →
      statusReducer (some p) (some n) = some (if rp ≤ rn then n else p)) := by
  refine ⟨?_, ?_, ?_, ?_⟩
  · intro p; cases p <;> rfl
  · intro p hp; cases p <;> simp_all <;> rfl
  · rfl
  · intro p n rp rn hp hn
    cases p <;> cases n <;> simp only [progRank, Option.some.injEq] at hp hn <;>
      first
        | exact Option.noConfusion hp
        | exact Option.noConfusion hn
        | (cases hp; cases hn; decide)

/-- Witness for `statusReducer_monotone_progression` at concrete statuses:
writing does not regress to analyzing, error overrides idle. -/
theorem statusReducer_monotone_progression_witness :
    statusReducer (some .writing) (some .analyzing) = some .writing ∧
    statusReducer (some .idle) (some .error) = some .error := by
  constructor
  · have h := statusReducer_monotone_progression.2.2.2 .writing .analyzing 3 2 rfl rfl
    simpa using h
  · exact statusReducer_monotone_progression.2.1 .idle (by decide)

/-! ## Retry-info merge policy -/

/-- A current retryInfo carrying a previous error message. -/
def c4Prev : RetryInfo := ⟨1, 3, some "LLM analysis failed", some "previous failure"⟩

/-- An update retryInfo whose `lastError` is present. -/
def c4Next : RetryInfo := ⟨2, 3, some "LLM analysis failed", some "new failure"⟩

/-- Counterexample to claim C4: the update carries
`lastError = some "new failure"`, yet the merged value keeps the previous
`lastError` — `retryInfoReducer` overrides the spread with
`prev?.lastError` unconditionally, so the merged lastError differs from
the update lastError. -/
theorem retryInfoReducer_lastError_not_replaced :
    c4Next.lastError = some "new failure" ∧
    (retryInfoReducer (some c4Prev) (some c4Next)).map RetryInfo.lastError =
      some (some "previous failure") ∧
    decide ((retryInfoReducer (some c4Prev) (some c4Next)).map RetryInfo.lastError =
      some c4Next.lastError) = false := by
  decide

/-- Claim C4 (corrected): merging a present update retryInfo replaces
`attempt`, `maxAttempts` and `reason` with the update values, but the
merged `lastError` always equals the current state value (`none` when the
current retryInfo is absent), regardless of the update `lastError`; an
absent update leaves the field untouched. -/
theorem retryInfoReducer_always_keeps_previous_lastError :
    (∀ p u : RetryInfo, retryInfoReducer (some p) (some u) =
      some ⟨u.attempt, u.maxAttempts, u.reason, p.lastError⟩) ∧
    (∀ u : RetryInfo, retryInfoReducer none (some u) =
      some ⟨u.attempt, u.maxAttempts, u.reason, none⟩) ∧
    (∀ p : Option RetryInfo, retryInfoReducer p none = p) :=
  ⟨fun _ _ => rfl, fun _ => rfl, fun _ => rfl⟩

/-! ## Log append invariant -/

/-- Claim C8 (confirmed): folding any sequence of updates through the
state container leaves `log` equal to the initial log followed by the
concatenation of the update logs in application order (absent logs
contribute nothing); no entries are dropped or reordered. -/
theorem log_append_invariant (s : State) (us : List StateUpdate) :
    (batchStateReducer s us).log = s.log ++ (us.map (fun u => u.log.getD [])).flatten := by
  induction us generalizing s with
  | nil => simp [batchStateReducer]
  | cons u rest ih =>
    have hstep : (mergeStateReducer s u).log = s.log ++ u.log.getD [] := by
      cases h : u.log <;> simp [mergeStateReducer, logReducer, h]
    calc (batchStateReducer s (u :: rest)).log
        = (batchStateReducer (mergeStateReducer s u) rest).log := rfl
      _ = (mergeStateReducer s u).log ++ (rest.map (fun v => v.log.getD [])).flatten := ih _
      _ = s.log ++ ((u :: rest).map (fun v => v.log.getD [])).flatten := by
          rw [hstep]
          simp [List.append_assoc]

/-! ## Analysis merge policy -/

/-- A current analysis with non-empty scalar fields. -/
def c9Prev : PaperAnalysis where
  researchGap := [⟨"method", "gap in methods", .medium⟩]
  relatedPapers := []
  keyFindings := [⟨"finding a", "evidence a", .high⟩]
  methodology := "prior methodology text"
  conclusions := "prior conclusions text"
  strengths := ["clear writing"]
  limitations := []
  suggestions := []

/-- An update analysis whose scalar fields are empty strings. -/
def c9Next : PaperAnalysis where
  researchGap := []
  relatedPapers := []
  keyFindings := [⟨"finding b", "evidence b", .low⟩]
  methodology := ""
  conclusions := ""
  strengths := []
  limitations := ["small sample"]
  suggestions := []

/-- Counterexample to claim C9: the merged analysis does not take the
update value for the scalar sub-field `methodology` — the update value is
the empty string, which JS `||` discards in favour of the current value. -/
theorem analysisReducer_scalar_not_last_write :
    c9Next.methodology = "" ∧
    (analysisReducer (some c9Prev) (some c9Next)).map PaperAnalysis.methodology =
      some "prior methodology text" ∧
    decide ((analysisReducer (some c9Prev) (some c9Next)).map PaperAnalysis.methodology =
      some c9Next.methodology) = false := by
  decide

/-- Claim C9 (corrected): when both analyses are present the merge
concatenates the six list-valued sub-fields in current-then-update order,
and for the scalar sub-fields methodology and conclusions takes the
update value only when it is non-empty, keeping the current value
otherwise. -/
theorem analysisReducer_merge_shape (p n : PaperAnalysis) :
    analysisReducer (some p) (some n) = some {
      researchGap := p.researchGap ++ n.researchGap
      relatedPapers := p.relatedPapers ++ n.relatedPapers
      keyFindings := p.keyFindings ++ n.keyFindings
      methodology := if n.methodology = "" then p.methodology else n.methodology
      conclusions := if n.conclusions = "" then p.conclusions else n.conclusions
      strengths := p.strengths ++ n.strengths
      limitations := p.limitations ++ n.limitations
      suggestions := p.suggestions ++ n.suggestions } := rfl

/-! ## Batch coordinator properties -/

theorem mkParRecords_append (runner : String → RunnerOutcome) (base : Nat)
    (l1 l2 : List String) :
    mkParRecords runner base (l1 ++ l2) =
      mkParRecords runner base l1 ++ mkParRecords runner (base + l1.length) l2 := by
  induction l1 generalizing base with
  | nil => simp [mkParRecords]
  | cons p rest ih =>
    have harith : base + 1 + rest.length = base + (rest.length + 1) := by omega
    calc mkParRecords runner base ((p :: rest) ++ l2)
        = mkParRecord runner base p :: mkParRecords runner (base + 1) (rest ++ l2) := rfl
      _ = mkParRecord runner base p :: (mkParRecords runner (base + 1) rest ++
            mkParRecords runner (base + 1 + rest.length) l2) := by rw [ih]
      _ = mkParRecords runner base (p :: rest) ++
            mkParRecords runner (base + (rest.length + 1)) l2 := by
          rw [harith]; rfl

theorem runWaves_eq_mkParRecords (runner : String → RunnerOutcome) (c : Nat) :
    ∀ (N : Nat) (paths : List String) (base : Nat), paths.length ≤ N →
      runWaves runner c base paths = mkParRecords runner base paths := by
  intro N
  induction N with
  | zero =>
    intro paths base h
    cases paths with
    | nil => simp [runWaves, mkParRecords]
    | cons p rest => simp at h
  | succ N ih =>
    intro paths base h
    cases paths with
    | nil => simp [runWaves, mkParRecords]
    | cons p rest =>
      rw [runWaves]
      have hsplit := List.take_append_drop (c + 1) (p :: rest)
      conv_rhs => rw [← hsplit]
      rw [mkParRecords_append]
      congr 1
      apply ih
      have hlen : ((p :: rest).drop (c + 1)).length = (p :: rest).length - (c + 1) := by
        simp
      have hd : (p :: rest).length = rest.length + 1 := by simp
      simp only [List.length_cons] at h
      omega

theorem mkParRecords_length (runner : String → RunnerOutcome) (base : Nat)
    (paths : List String) :
    (mkParRecords runner base paths).length = paths.length := by
  induction paths generalizing base with
  | nil => rfl
  | cons p rest ih => simp [mkParRecords, ih]

theorem mkParRecords_get (runner : String → RunnerOutcome) (paths : List String) :
    ∀ (base k : Nat) (hk : k < paths.length),
      (mkParRecords runner base paths).get? k =
        some (mkParRecord runner (base + k) (paths.get ⟨k, hk⟩)) := by
  induction paths with
  | nil => intro base k hk; simp at hk
  | cons p rest ih =>
    intro base k hk
    cases k with
    | zero => rfl
    | succ k =>
      have hk2 : k < rest.length := by simpa using hk
      have := ih (base + 1) k hk2
      simp only [mkParRecords, List.get?, this, Option.some.injEq]
      have harith : base + 1 + k = base + (k + 1) := by omega
      rw [harith]
      rfl

/-- Claim C7 (confirmed): in the bounded-parallel coordinator every result
record index equals the dispatch-time position of its input, and the
aggregated list is ordered by input position: the record at position `k`
carries index `k` and the `k`-th input path. `Promise.all` resolves to the
dispatch-ordered array, so this holds independently of completion order
within a wave. -/
theorem parallel_batch_result_ordering (runner : String → RunnerOutcome)
    (paths : List String) (c k : Nat) (hc : 1 ≤ c) (hk : k < paths.length) :
    (runWaves runner c 0 paths).length = paths.length ∧
    (runWaves runner c 0 paths).get? k =
      some (mkParRecord runner k (paths.get ⟨k, hk⟩)) ∧
    ∃ r, (runWaves runner c 0 paths).get? k = some r ∧
      r.index = k ∧ r.pdfPath = paths.get ⟨k, hk⟩ := by
  have heq := runWaves_eq_mkParRecords runner c paths.length paths 0 le_rfl
  have hget := mkParRecords_get runner paths 0 k hk
  simp only [Nat.zero_add] at hget
  refine ⟨?_, ?_, ?_⟩
  · rw [heq, mkParRecords_length]
  · rw [heq]; exact hget
  · refine ⟨mkParRecord runner k (paths.get ⟨k, hk⟩), ?_, ?_, ?_⟩
    · rw [heq]; exact hget
    · unfold mkParRecord
      cases runner (paths.get ⟨k, hk⟩) <;> rfl
    · unfold mkParRecord
      cases runner (paths.get ⟨k, hk⟩) <;> rfl

/-- A concrete runner for the witness: the second input fails with a
returned error status, the others succeed. -/
def parRunnerEx : String → RunnerOutcome := fun p =>
  if p = "b.pdf" then
    .ok ⟨none, none, none, .error, some "conversion failed"⟩
  else
    .ok ⟨some "# md", some "a summary", none, .completed, none⟩

/-- Witness for `parallel_batch_result_ordering`: three inputs at
concurrency 3 (`c = 2`), the middle one failing; the record at position 1
still carries index 1 and the second path. -/
theorem parallel_batch_result_ordering_witness :
    (runWaves parRunnerEx 2 0 ["a.pdf", "b.pdf", "c.pdf"]).length = 3 ∧
    ∃ r, (runWaves parRunnerEx 2 0 ["a.pdf", "b.pdf", "c.pdf"]).get? 1 = some r ∧
      r.index = 1 ∧ r.pdfPath = "b.pdf" := by
  have h := parallel_batch_result_ordering parRunnerEx ["a.pdf", "b.pdf", "c.pdf"] 2 1
    (by decide) (by decide)
  exact ⟨h.1, h.2.2⟩

/-- The bounded-parallel batch always finishes with status `completed`,
whatever the synthesis outcome, and the synthesis stage is invoked exactly
once when at least two records carry no error and zero times otherwise. -/
theorem parallel_batch_synthesis_policy
    (runner : String → RunnerOutcome) (synth : List ResultRecord → SynthOutcome)
    (paths : List String) (c : Nat) :
    (runMultiPaperWorkflowParallel runner synth paths c).status =
      WorkflowStatus.completed ∧
    ((runMultiPaperWorkflowParallel runner synth paths c).synthCalls = 1 ↔
      2 ≤ ((runWaves runner c 0 paths).filter (fun r => jsFalsyS r.error)).length) ∧
    ((runMultiPaperWorkflowParallel runner synth paths c).synthCalls = 0 ↔
      ((runWaves runner c 0 paths).filter (fun r => jsFalsyS r.error)).length ≤ 1) := by
  have hstep : ∀ (agg : List ResultRecord) (o : SynthOutcome),
      (parallelSynthesisStep agg o).status = WorkflowStatus.completed ∧
      (parallelSynthesisStep agg o).synthCalls = 1 := by
    intro agg o
    cases o with
    | thrown msg => exact ⟨rfl, rfl⟩
    | ret st dr =>
      constructor
      · unfold parallelSynthesisStep
        dsimp only
        split <;> rfl
      · unfold parallelSynthesisStep
        dsimp only
        split <;> rfl
  unfold runMultiPaperWorkflowParallel
  by_cases h : 1 < ((runWaves runner c 0 paths).filter (fun r => jsFalsyS r.error)).length
  · simp only [if_pos h]
    obtain ⟨h1, h2⟩ := hstep (runWaves runner c 0 paths)
      (synth ((runWaves runner c 0 paths).filter (fun r => jsFalsyS r.error)))
    refine ⟨h1, ?_, ?_⟩ <;> rw [h2] <;> constructor <;> intro hx <;> omega
  · simp only [if_neg h]
    refine ⟨?_, ?_, ?_⟩
    · trivial
    · constructor
      · intro hx
        exact absurd hx (by decide)
      · intro h2; omega
    · constructor
      · intro _; omega
      · intro _; trivial

/-- A sequential runner whose per-input pipelines all succeed. -/
def seqOkRunner : String → SingleRunResult := fun _ =>
  ⟨some "# md", some "a summary", none, .completed, none⟩

/-- Counterexample to claim C6: in the sequential batch coordinator, with
two inputs that both succeed (so both result records carry no error and
synthesis is invoked), a synthesis failure changes the batch final status
to `error` — it is not left `completed`. -/
theorem sequential_batch_synthesis_failure_sets_error :
    (runMultiPaperWorkflow seqOkRunner (fun _ => SynthOutcome.thrown "synthesis failed")
      ["a.pdf", "b.pdf"]).synthCalls = 1 ∧
    (runMultiPaperWorkflow seqOkRunner (fun _ => SynthOutcome.thrown "synthesis failed")
      ["a.pdf", "b.pdf"]).status = WorkflowStatus.error ∧
    decide ((runMultiPaperWorkflow seqOkRunner
      (fun _ => SynthOutcome.thrown "synthesis failed")
      ["a.pdf", "b.pdf"]).status = WorkflowStatus.completed) = false := by
  decide

/-- Whenever the sequential batch has more than one result record and its
synthesis invocation throws, the batch-level final status is `error`. -/
theorem sequential_batch_synthesis_failure_policy
    (runner : String → SingleRunResult) (msg : String) (paths : List String)
    (h : 1 < (mkSeqRecords runner 0 paths).length) :
    (runMultiPaperWorkflow runner (fun _ => SynthOutcome.thrown msg) paths).status =
      WorkflowStatus.error := by
  unfold runMultiPaperWorkflow
  rw [if_pos h]

/-- Whenever the sequential batch has more than one result record and its
synthesis invocation returns a result whose status is `error`, the
batch-level final status is `error` as well (`finalStatus =
result.status === error ? error : completed`), whatever draft the
result carries. -/
theorem sequential_batch_synthesis_error_status_policy
    (runner : String → SingleRunResult) (dr : Option String) (paths : List String)
    (h : 1 < (mkSeqRecords runner 0 paths).length) :
    (runMultiPaperWorkflow runner
      (fun _ => SynthOutcome.ret WorkflowStatus.error dr) paths).status =
      WorkflowStatus.error := by
  unfold runMultiPaperWorkflow
  rw [if_pos h]
  rfl

/-- Claim C6 (corrected): in the bounded-parallel coordinator the batch
status is always `completed` (synthesis failure is never fatal there) and
the synthesis stage is invoked exactly once when at least two result
records carry no error, zero times otherwise; in the sequential
coordinator, however, a synthesis failure over more than one record —
thrown, or a returned result whose status is `error` — sets the
batch-level final status to `error`. -/
theorem batch_synthesis_policy :
    (∀ (runner : String → RunnerOutcome) (synth : List ResultRecord → SynthOutcome)
       (paths : List String) (c : Nat),
      (runMultiPaperWorkflowParallel runner synth paths c).status =
        WorkflowStatus.completed ∧
      ((runMultiPaperWorkflowParallel runner synth paths c).synthCalls = 1 ↔
        2 ≤ ((runWaves runner c 0 paths).filter (fun r => jsFalsyS r.error)).length) ∧
      ((runMultiPaperWorkflowParallel runner synth paths c).synthCalls = 0 ↔
        ((runWaves runner c 0 paths).filter (fun r => jsFalsyS r.error)).length ≤ 1)) ∧
    (∀ (runner : String → SingleRunResult) (msg : String) (paths : List String),
      1 < (mkSeqRecords runner 0 paths).length →
      (runMultiPaperWorkflow runner (fun _ => SynthOutcome.thrown msg) paths).status =
        WorkflowStatus.error) ∧
    (∀ (runner : String → SingleRunResult) (dr : Option String) (paths : List String),
      1 < (mkSeqRecords runner 0 paths).length →
      (runMultiPaperWorkflow runner
        (fun _ => SynthOutcome.ret WorkflowStatus.error dr) paths).status =
        WorkflowStatus.error) :=
  ⟨parallel_batch_synthesis_policy, sequential_batch_synthesis_failure_policy,
   sequential_batch_synthesis_error_status_policy⟩

/-- Witness for `batch_synthesis_policy`: a three-input parallel batch
whose synthesis throws still completes, and a concrete two-input
sequential batch ends in error both when its synthesis throws and when
its synthesis returns an error status. -/
theorem batch_synthesis_policy_witness :
    (runMultiPaperWorkflowParallel parRunnerEx (fun _ => SynthOutcome.thrown "boom")
      ["a.pdf", "b.pdf", "c.pdf"] 2).status = WorkflowStatus.completed ∧
    1 < (mkSeqRecords seqOkRunner 0 ["x.pdf", "y.pdf"]).length ∧
    (runMultiPaperWorkflow seqOkRunner (fun _ => SynthOutcome.thrown "model unavailable")
      ["x.pdf", "y.pdf"]).status = WorkflowStatus.error ∧
    (runMultiPaperWorkflow seqOkRunner
      (fun _ => SynthOutcome.ret WorkflowStatus.error none)
      ["x.pdf", "y.pdf"]).status = WorkflowStatus.error :=
  ⟨(batch_synthesis_policy.1 parRunnerEx (fun _ => SynthOutcome.thrown "boom")
      ["a.pdf", "b.pdf", "c.pdf"] 2).1,
   by decide,
   batch_synthesis_policy.2.1 seqOkRunner "model unavailable" ["x.pdf", "y.pdf"]
     (by decide),
   batch_synthesis_policy.2.2 seqOkRunner none ["x.pdf", "y.pdf"] (by decide)⟩

/-! ## Input validation -/

theorem findNonPdf_eq_none_iff (paths : List String) :
    findNonPdf paths = none ↔
      ∀ p ∈ paths, strEndsWith (strToLower p) ".pdf" = true := by
  induction paths with
  | nil => simp [findNonPdf]
  | cons p rest ih =>
    by_cases h : strEndsWith (strToLower p) ".pdf"
    · have h2 : findNonPdf (p :: rest) = findNonPdf rest := by
        simp only [findNonPdf]
        rw [if_pos h]
      rw [h2, ih]
      simp [List.forall_mem_cons, h]
    · have h2 : findNonPdf (p :: rest) = some p := by
        simp only [findNonPdf]
        rw [if_neg h]
      rw [h2]
      constructor
      · intro hx; exact Option.noConfusion hx
      · intro hall
        exact absurd (hall p (List.mem_cons_self p rest)) h

theorem findNonPdf_some {paths : List String} {p : String}
    (h : findNonPdf paths = some p) :
    p ∈ paths ∧ strEndsWith (strToLower p) ".pdf" = false := by
  induction paths with
  | nil => exact Option.noConfusion h
  | cons q rest ih =>
    by_cases hq : strEndsWith (strToLower q) ".pdf"
    · have h2 : findNonPdf (q :: rest) = findNonPdf rest := by
        simp only [findNonPdf]
        rw [if_pos hq]
      rw [h2] at h
      obtain ⟨h1, h3⟩ := ih h
      exact ⟨List.mem_cons_of_mem _ h1, h3⟩
    · have h2 : findNonPdf (q :: rest) = some q := by
        simp only [findNonPdf]
        rw [if_neg hq]
      rw [h2] at h
      injection h with h
      subst h
      exact ⟨List.mem_cons_self _ _, by simpa using hq⟩

theorem string_eq_empty_of_length {s : String} (h : s.length = 0) : s = "" := by
  cases s with
  | mk data =>
    cases data with
    | nil => rfl
    | cons c cs => simp [String.length] at h

/-- Claim C10 (confirmed): `validateMultiPaperInputs` returns
`valid = false` exactly when the path list is empty, longer than 20,
contains a path not ending in ".pdf" case-insensitively, or the query is
empty or whitespace-only; every rejection carries a non-empty error
message; in particular more than 20 paths are always rejected. -/
theorem validateMultiPaperInputs_spec (paths : List String) (query : String) :
    ((validateMultiPaperInputs paths query).valid = false ↔
      (paths = [] ∨ 20 < paths.length ∨
       (∃ p ∈ paths, strEndsWith (strToLower p) ".pdf" = false) ∨
       strTrim query = "")) ∧
    ((validateMultiPaperInputs paths query).valid = false →
      ∃ msg, (validateMultiPaperInputs paths query).error = some msg ∧
        0 < msg.length) ∧
    (20 < paths.length → (validateMultiPaperInputs paths query).valid = false) := by
  by_cases h0 : paths.length = 0
  · have hnil : paths = [] := List.length_eq_zero.mp h0
    subst hnil
    refine ⟨?_, ?_, ?_⟩
    · simp [validateMultiPaperInputs]
    · intro _; exact ⟨_, rfl, by decide⟩
    · intro h; simp at h
  · have hne : paths ≠ [] := fun hh => h0 (by simp [hh])
    by_cases h20 : 20 < paths.length
    · refine ⟨?_, ?_, ?_⟩
      · simp only [validateMultiPaperInputs, if_neg h0, if_pos h20]
        simp [h20]
      · intro _
        simp only [validateMultiPaperInputs, if_neg h0, if_pos h20]
        exact ⟨_, rfl, by decide⟩
      · intro _
        simp only [validateMultiPaperInputs, if_neg h0, if_pos h20]
    · cases hf : findNonPdf paths with
      | some p =>
        obtain ⟨hmem, hbad⟩ := findNonPdf_some hf
        refine ⟨?_, ?_, ?_⟩
        · simp only [validateMultiPaperInputs, if_neg h0, if_neg h20, hf]
          constructor
          · intro _
            exact Or.inr (Or.inr (Or.inl ⟨p, hmem, hbad⟩))
          · intro _; trivial
        · intro _
          simp only [validateMultiPaperInputs, if_neg h0, if_neg h20, hf]
          refine ⟨_, rfl, ?_⟩
          rw [String.length_append]
          have e1 : ("Invalid PDF file: " : String).length = 18 := rfl
          rw [e1]
          omega
        · intro h; exact absurd h h20
      | none =>
        have hall : ∀ q ∈ paths, strEndsWith (strToLower q) ".pdf" = true :=
          (findNonPdf_eq_none_iff paths).mp hf
        by_cases hq : query = ""
        · refine ⟨?_, ?_, ?_⟩
          · simp only [validateMultiPaperInputs, if_neg h0, if_neg h20, hf, if_pos hq]
            constructor
            · intro _
              refine Or.inr (Or.inr (Or.inr ?_))
              rw [hq]; rfl
            · intro _; trivial
          · intro _
            simp only [validateMultiPaperInputs, if_neg h0, if_neg h20, hf, if_pos hq]
            exact ⟨_, rfl, by decide⟩
          · intro h; exact absurd h h20
        · by_cases hqt : (strTrim query).length = 0
          · refine ⟨?_, ?_, ?_⟩
            · simp only [validateMultiPaperInputs, if_neg h0, if_neg h20, hf, if_neg hq,
                if_pos hqt]
              constructor
              · intro _
                exact Or.inr (Or.inr (Or.inr (string_eq_empty_of_length hqt)))
              · intro _; trivial
            · intro _
              simp only [validateMultiPaperInputs, if_neg h0, if_neg h20, hf, if_neg hq,
                if_pos hqt]
              exact ⟨_, rfl, by decide⟩
            · intro h; exact absurd h h20
          · refine ⟨?_, ?_, ?_⟩
            · simp only [validateMultiPaperInputs, if_neg h0, if_neg h20, hf, if_neg hq,
                if_neg hqt]
              constructor
              · intro hcontra; exact absurd hcontra (by decide)
              · intro hdisj
                exfalso
                rcases hdisj with h | h | ⟨q, hqmem, hqbad⟩ | htrim
                · exact hne h
                · exact h20 h
                · rw [hall q hqmem] at hqbad
                  exact Bool.noConfusion hqbad
                · exact hqt (by rw [htrim]; rfl)
            · intro hcontra
              simp only [validateMultiPaperInputs, if_neg h0, if_neg h20, hf, if_neg hq,
                if_neg hqt] at hcontra
              exact absurd hcontra (by decide)
            · intro h; exact absurd h h20

/-- Witness for `validateMultiPaperInputs_spec` at concrete inputs: a
non-PDF path is rejected with a non-empty message, a valid input is
accepted. -/
theorem validateMultiPaperInputs_spec_witness :
    (validateMultiPaperInputs ["notes.txt"] "query").valid = false ∧
    (∃ msg, (validateMultiPaperInputs ["notes.txt"] "query").error = some msg ∧
      0 < msg.length) ∧
    (validateMultiPaperInputs ["a.pdf", "B.PDF"] "compare them").valid = true := by
  have h := validateMultiPaperInputs_spec ["notes.txt"] "query"
  have hinvalid : (validateMultiPaperInputs ["notes.txt"] "query").valid = false :=
    h.1.mpr (Or.inr (Or.inr (Or.inl ⟨"notes.txt", by decide, by decide⟩)))
  exact ⟨hinvalid, h.2.1 hinvalid, by decide⟩

end LGR
